import Mathlib

/-!
Shallow embedding of `deepsleep/deepsleep.py`, the host-side driver for the
PIC companion chip that manages the board's deep-sleep cycle, together with
theorems settling the specification claims about it.

Modelling conventions:
* Python integers are `ℤ` (or `ℕ` where the source value is plainly
  non-negative); Python's `x & 0xFF` on an `int` is `x % 256` with Euclidean
  `%`, and `~x` is `-x - 1`, exactly as in CPython's two's-complement view.
* Python floats are modelled as exact rationals `ℚ`; `int(q)` truncates
  toward zero (`pyInt`).
* Fallible code (indexing a short echo, division by zero, an invalid pin
  name) returns `Except`/`Option` instead of raising.
* The UART is modelled by the observable effects the claims speak about:
  the 4-byte command frame written after the break and the `0x55` sync byte,
  and the kind of read request issued afterwards (`ReadReq`).
-/

set_option maxRecDepth 4000

namespace DeepSleep

/-- Module-level constant `PIN_MASK = 0b1010` from the source. -/
def PIN_MASK : ℕ := 0b1010

/-- Module-level constant `TIMER_WAKE = 1 << 4`. -/
def TIMER_WAKE : ℕ := 1 <<< 4

/-- Module-level constant `POWER_ON_WAKE = 1 << 5`. -/
def POWER_ON_WAKE : ℕ := 1 <<< 5

/-- Register address constants from the `DeepSleep` class. -/
def WPUA_ADDR : ℕ := 0x09

def OPTION_REG_ADDR : ℕ := 0x0E

def IOCAP_ADDR : ℕ := 0x1A

def IOCAN_ADDR : ℕ := 0x1B

def WAKE_STATUS_ADDR : ℕ := 0x40

def MIN_BAT_ADDR : ℕ := 0x41

def SLEEP_TIME_ADDR : ℕ := 0x42

def CTRL_0_ADDR : ℕ := 0x45

/-- `EXP_RTC_PERIOD = const(7000)`. -/
def EXP_RTC_PERIOD : ℕ := 7000

/-- Python's `x & 0xFF` on an arbitrary `int`: Euclidean remainder mod 256,
always in `[0, 255]`. -/
def pyAnd255 (x : ℤ) : ℤ := x % 256

/-- Python's bitwise complement `~x` on `int`: two's complement, `-x - 1`. -/
def pyNot (x : ℤ) : ℤ := -x - 1

/-- Python's `int(q)` on a real value: truncation toward zero. -/
def pyInt (q : ℚ) : ℤ := if 0 ≤ q then ⌊q⌋ else ⌈q⌉

/-- The kind of read `_magic` performs after sending a frame, mirroring its
`expected` parameter: `expected is None` reads the whole pending echo;
`expected > 0` reads up to that many bytes; `expected = 0` reads nothing. -/
inductive ReadReq where
  | all : ReadReq
  | upTo (n : ℕ) : ReadReq
  | skip : ReadReq
deriving DecidableEq, Repr

/-- The 4-byte command frame `_magic` writes after the break and the `0x55`
sync byte: `[address, and_val & 0xFF, or_val & 0xFF, xor_val & 0xFF]`
(the source masks the three operands but not the address). -/
def magicFrame (address and_val or_val xor_val : ℤ) : List ℤ :=
  [address, pyAnd255 and_val, pyAnd255 or_val, pyAnd255 xor_val]

/-- The read request `_magic` issues, from its `expected` argument. -/
def magicReadReq (expected : Option ℕ) : ReadReq :=
  match expected with
  | none => .all
  | some n => if 0 < n then .upTo n else .skip

/-- What `_magic` returns when `expected is None`: the whole echo available
on the UART (`self.uart.read()`), then `peek` indexes into it. -/
def magicReadAll (echo : List ℕ) : List ℕ := echo

/-- Frame sent by `poke(address, value)`: `_magic(address, 0, value, 0)`. -/
def pokeFrame (address value : ℤ) : List ℤ := magicFrame address 0 value 0

/-- Frame sent by `peek(address)`: `_magic(address, 0xFF, 0, 0)`. -/
def peekFrame (address : ℤ) : List ℤ := magicFrame address 0xFF 0 0

/-- Read request issued by `peek`: `_magic` is called without `expected`. -/
def peekReadReq : ReadReq := magicReadReq none

/-- Result of `peek(address)` given the echo the UART yields: the byte at
index 6 of the whole available echo (`self._magic(...)[6]`), failing when
the echo is shorter than 7 bytes. -/
def peek (echo : List ℕ) : Option ℕ := (magicReadAll echo)[6]?

/-- Frame sent by `setbits(address, mask)`: `_magic(address, 0xFF, mask, 0)`. -/
def setbitsFrame (address mask : ℤ) : List ℤ := magicFrame address 0xFF mask 0

/-- Frame sent by `clearbits(address, mask)`: `_magic(address, ~mask, 0, 0)`. -/
def clearbitsFrame (address mask : ℤ) : List ℤ :=
  magicFrame address (pyNot mask) 0 0

/-- Frame sent by `togglebits(address, mask)`: `_magic(address, 0xFF, 0, mask)`. -/
def togglebitsFrame (address mask : ℤ) : List ℤ := magicFrame address 0xFF 0 mask

/-- `_add_to_pin_mask(mask, pin)`: ORs in one bit for each recognised pin
name, and raises `ValueError` for anything else. -/
def addToPinMask (mask : ℕ) (pin : String) : Except String ℕ :=
  if pin = "P10" ∨ pin = "G17" then .ok (mask ||| 0x01)
  else if pin = "P17" ∨ pin = "G31" then .ok (mask ||| 0x02)
  else if pin = "P18" ∨ pin = "G30" then .ok (mask ||| 0x08)
  else .error ("Invalid Pin specified: " ++ pin)

/-- The argument of `_create_pin_mask`: either a single pin name (`str`) or
a collection of them. -/
inductive Pins where
  | single (p : String) : Pins
  | many (ps : List String) : Pins

/-- `_create_pin_mask(pins)`: folds `_add_to_pin_mask` over the input
starting from 0 and ANDs the result with `PIN_MASK`. -/
def createPinMask : Pins → Except String ℕ
  | .single p => do
      let m ← addToPinMask 0 p
      pure (m &&& PIN_MASK)
  | .many ps => do
      let m ← ps.foldlM addToPinMask 0
      pure (m &&& PIN_MASK)

/-- The closed set of pin names `_add_to_pin_mask` recognises. -/
def validPin (pin : String) : Prop :=
  pin = "P10" ∨ pin = "G17" ∨ pin = "P17" ∨ pin = "G31" ∨
    pin = "P18" ∨ pin = "G30"

instance (pin : String) : Decidable (validPin pin) := by
  unfold validPin; infer_instance

/-- The bit `_add_to_pin_mask` contributes for a recognised pin name. -/
def pinBit (pin : String) : ℕ :=
  if pin = "P10" ∨ pin = "G17" then 0x01
  else if pin = "P17" ∨ pin = "G31" then 0x02
  else if pin = "P18" ∨ pin = "G30" then 0x08
  else 0

/-- The candidate calibration factor `calibrate` computes from the captured
pulse train: `(self._pulses[4][1] - self._pulses[1][1]) / EXP_RTC_PERIOD`.
Each pulse is a `(level, timestamp)` pair as returned by `pulses_get`. When
either index is out of range the `try/except: pass` keeps the prior value
of `self.clk_cal_factor`. -/
def calibCandidate (prior : ℚ) (pulses : List (ℤ × ℤ)) : ℚ :=
  match pulses[4]?, pulses[1]? with
  | some p4, some p1 => ((p4.2 - p1.2 : ℤ) : ℚ) / (EXP_RTC_PERIOD : ℚ)
  | _, _ => prior

/-- The final lines of `calibrate`: `if self.clk_cal_factor > 1.25 or
self.clk_cal_factor < 0.75: self.clk_cal_factor = 1`. -/
def clampFactor (f : ℚ) : ℚ := if 1.25 < f ∨ f < 0.75 then 1 else f

/-- `calibrate()` as a function of the prior `clk_cal_factor` and the pulse
train captured on the line: the new value of `self.clk_cal_factor`. -/
def calibrate (prior : ℚ) (pulses : List (ℤ × ℤ)) : ℚ :=
  clampFactor (calibCandidate prior pulses)

/-- The dictionary `get_wake_status` builds from the byte peeked at
`WAKE_STATUS_ADDR`. -/
structure WakeStatus where
  wake : ℕ
  P10 : ℕ
  P17 : ℕ
  P18 : ℕ
deriving DecidableEq, Repr

/-- `get_wake_status()` as a function of the status byte `wake_r` read from
the wake-status register. -/
def getWakeStatus (wake_r : ℕ) : WakeStatus where
  wake := wake_r &&& (TIMER_WAKE ||| POWER_ON_WAKE)
  P10 := wake_r &&& 0x01
  P17 := (wake_r &&& 0x02) >>> 1
  P18 := (wake_r &&& 0x08) >>> 3

/-- The register value `set_min_voltage_limit(value)` computes and pokes to
`MIN_BAT_ADDR`: `int(((256 * 2.048) + (value / 2)) / value)`. A zero input
makes the division raise `ZeroDivisionError`, modelled as `none`. -/
def setMinVoltageLimit (value : ℚ) : Option ℤ :=
  if value = 0 then none
  else some (pyInt ((256 * 2.048 + value / 2) / value))

/-- The tick computation inside `go_to_sleep`:
`int((seconds / (1.024 * self.clk_cal_factor)) + 0.5)`. -/
def computeTicks (seconds factor : ℚ) : ℤ :=
  pyInt (seconds / (1.024 * factor) + 0.5)

/-- One iteration of `go_to_sleep`'s `while True` loop overwrites the local
`seconds` with the computed tick count. `sleepSeconds f s0 n` is the value
the variable `seconds` holds after `n` iterations, where `f i` is the
`clk_cal_factor` calibration yields during iteration `i`. -/
def sleepSeconds (f : ℕ → ℚ) (s0 : ℚ) : ℕ → ℚ
  | 0 => s0
  | n + 1 => ((computeTicks (sleepSeconds f s0 n) (f n) : ℤ) : ℚ)

/-- The tick count iteration `n` (0-based) of the loop writes to the
sleep-time registers. -/
def ticksWritten (f : ℕ → ℚ) (s0 : ℚ) (n : ℕ) : ℤ :=
  computeTicks (sleepSeconds f s0 n) (f n)

/-- The four frames one loop iteration of `go_to_sleep` sends for a tick
count `t`: the three big-endian tick bytes poked into the consecutive
sleep-time registers, then `setbits(CTRL_0_ADDR, 1 << 0)` arming sleep.
Python's `t >> k` on `int` is floor division by `2 ^ k`, which for the
positive divisor coincides with Euclidean `/` on `ℤ`. -/
def goToSleepFrames (t : ℤ) : List (List ℤ) :=
  [pokeFrame SLEEP_TIME_ADDR (pyAnd255 (t / 2 ^ 16)),
   pokeFrame (SLEEP_TIME_ADDR + 1) (pyAnd255 (t / 2 ^ 8)),
   pokeFrame (SLEEP_TIME_ADDR + 2) (pyAnd255 t),
   setbitsFrame CTRL_0_ADDR (1 <<< 0)]

/-- The OR of the bits `_add_to_pin_mask` contributes for each name in a
list, before the final AND with `PIN_MASK`. -/
def orBits (ps : List String) : ℕ := ps.foldr (fun p acc => pinBit p ||| acc) 0

/-! ### Supporting lemmas -/

theorem addToPinMask_valid (m : ℕ) (p : String) (h : validPin p) :
    addToPinMask m p = .ok (m ||| pinBit p) := by
  rcases h with h | h | h | h | h | h <;> subst h <;> rfl

theorem addToPinMask_invalid (m : ℕ) (p : String) (h : ¬ validPin p) :
    addToPinMask m p = .error ("Invalid Pin specified: " ++ p) := by
  simp only [validPin, not_or] at h
  obtain ⟨h1, h2, h3, h4, h5, h6⟩ := h
  simp [addToPinMask, h1, h2, h3, h4, h5, h6]

theorem foldlM_addToPinMask (ps : List String) (m : ℕ)
    (h : ∀ p ∈ ps, validPin p) :
    ps.foldlM addToPinMask m = .ok (m ||| orBits ps) := by
  induction ps generalizing m with
  | nil => simp [orBits]; rfl
  | cons p ps ih =>
      have hp := h p (List.mem_cons_self p ps)
      have hrest : ∀ q ∈ ps, validPin q := fun q hq => h q (List.mem_cons_of_mem p hq)
      rw [List.foldlM_cons, addToPinMask_valid m p hp]
      show ps.foldlM addToPinMask (m ||| pinBit p) = _
      rw [ih (m ||| pinBit p) hrest]
      simp [orBits, Nat.lor_assoc]

theorem foldlM_addToPinMask_error (ps : List String) (m : ℕ)
    (h : ∃ p ∈ ps, ¬ validPin p) :
    ∃ e, ps.foldlM addToPinMask m = .error e := by
  induction ps generalizing m with
  | nil => simp at h
  | cons p ps ih =>
      by_cases hp : validPin p
      · rw [List.foldlM_cons, addToPinMask_valid m p hp]
        show ∃ e, ps.foldlM addToPinMask (m ||| pinBit p) = .error e
        apply ih
        rcases h with ⟨q, hq, hqv⟩
        rcases List.mem_cons.mp hq with rfl | hq'
        · exact absurd hp hqv
        · exact ⟨q, hq', hqv⟩
      · rw [List.foldlM_cons, addToPinMask_invalid m p hp]
        exact ⟨_, rfl⟩

theorem orBits_testBit (ps : List String) (i : ℕ) :
    (orBits ps).testBit i = ps.any fun p => (pinBit p).testBit i := by
  induction ps with
  | nil => simp [orBits]
  | cons p ps ih => simp [orBits, Nat.testBit_lor, List.any_cons, ← ih]

theorem orBits_of_same_members (ps ps' : List String)
    (h : ∀ p, p ∈ ps ↔ p ∈ ps') : orBits ps = orBits ps' := by
  refine Nat.eq_of_testBit_eq fun i => ?_
  rw [orBits_testBit, orBits_testBit]
  rw [Bool.eq_iff_iff]
  simp only [List.any_eq_true]
  constructor
  · rintro ⟨p, hp, hb⟩; exact ⟨p, (h p).mp hp, hb⟩
  · rintro ⟨p, hp, hb⟩; exact ⟨p, (h p).mpr hp, hb⟩

theorem createPinMask_many_valid (ps : List String)
    (h : ∀ p ∈ ps, validPin p) :
    createPinMask (.many ps) = .ok (orBits ps &&& PIN_MASK) := by
  show ps.foldlM addToPinMask 0 >>= _ = _
  rw [foldlM_addToPinMask ps 0 h, Nat.zero_or]
  rfl

/-! ### Claim theorems -/

/-- C1 (counterexample): the claim predicts that translating the pin set
`{P10, P18}` yields `bit0 ||| bit3 = 9`, because it takes the valid-bit mask
to cover bits `{0, 1, 3}`. The source's `PIN_MASK` is `0b1010`, so the
translation actually yields `0b1000 = 8`, with P10's bit 0 masked off. -/
theorem C1_pin_mask_counterexample :
    createPinMask (.many ["P10", "P18"]) = .ok 8 ∧
    ¬ createPinMask (.many ["P10", "P18"]) = .ok (0x01 ||| 0x08) := by
  constructor
  · rfl
  · intro hcontra
    rw [show createPinMask (.many ["P10", "P18"]) = .ok 8 from rfl] at hcontra
    simp at hcontra

/-- C1 (amended): for every input to pin-mask translation (a single pin
name or a list of them, all drawn from the recognised set), the resulting
mask is the OR of one bit per identifier (bit 0 for P10/G17, bit 1 for
P17/G31, bit 3 for P18/G30) ANDed with the fixed valid-bit mask
`PIN_MASK = 0b1010`, which covers exactly bits `{1, 3}`; in particular,
translating the set `{P10, P18}` yields bit 3 alone, and the result is
invariant under reordering or duplication of the input list. -/
theorem C1_pin_mask_translation :
    (∀ p, validPin p →
      createPinMask (.single p) = .ok (pinBit p &&& PIN_MASK)) ∧
    (∀ ps, (∀ p ∈ ps, validPin p) →
      createPinMask (.many ps) = .ok (orBits ps &&& PIN_MASK)) ∧
    PIN_MASK = 2 ^ 1 ||| 2 ^ 3 ∧
    createPinMask (.many ["P10", "P18"]) = .ok (2 ^ 3) ∧
    (∀ ps ps', (∀ p ∈ ps, validPin p) → (∀ p, p ∈ ps ↔ p ∈ ps') →
      createPinMask (.many ps) = createPinMask (.many ps')) := by
  refine ⟨?_, ?_, by decide, by rfl, ?_⟩
  · intro p hp
    show addToPinMask 0 p >>= _ = _
    rw [addToPinMask_valid 0 p hp, Nat.zero_or]
    rfl
  · exact createPinMask_many_valid
  · intro ps ps' hval hmem
    have hval' : ∀ p ∈ ps', validPin p := fun p hp => hval p ((hmem p).mpr hp)
    rw [createPinMask_many_valid ps hval, createPinMask_many_valid ps' hval',
      orBits_of_same_members ps ps' hmem]

/-- C1 (witness): the amended statement instantiated at the single pin
`"P17"`, the list `["P18", "P10", "P18"]`, and the reordered/duplicated
pair of lists `["P10", "P18"]` and `["P18", "P10", "P10"]`. -/
theorem C1_pin_mask_translation_witness :
    createPinMask (.single "P17") = .ok (pinBit "P17" &&& PIN_MASK) ∧
    createPinMask (.many ["P18", "P10", "P18"]) =
      .ok (orBits ["P18", "P10", "P18"] &&& PIN_MASK) ∧
    createPinMask (.many ["P10", "P18"]) =
      createPinMask (.many ["P18", "P10", "P10"]) :=
  ⟨C1_pin_mask_translation.1 "P17" (by decide),
   C1_pin_mask_translation.2.1 ["P18", "P10", "P18"] (by decide),
   C1_pin_mask_translation.2.2.2.2 ["P10", "P18"] ["P18", "P10", "P10"]
     (by decide)
     (fun p => by simp only [List.mem_cons, List.not_mem_nil, or_false]; tauto)⟩

/-- C7: pin-mask translation fails with the `Invalid Pin specified` error
for every identifier outside the closed set `{P10, G17, P17, G31, P18, G30}`,
and a collection containing such an identifier never translates to any mask
at all — an unknown identifier never silently contributes 0. -/
theorem C7_invalid_pin_rejected (pin : String) (hpin : ¬ validPin pin) :
    (∀ mask, addToPinMask mask pin =
      .error ("Invalid Pin specified: " ++ pin)) ∧
    (∀ r, createPinMask (.single pin) ≠ .ok r) ∧
    (∀ ps r, pin ∈ ps → createPinMask (.many ps) ≠ .ok r) := by
  refine ⟨fun mask => addToPinMask_invalid mask pin hpin, ?_, ?_⟩
  · intro r hcontra
    have : createPinMask (.single pin) =
        .error ("Invalid Pin specified: " ++ pin) := by
      show addToPinMask 0 pin >>= _ = _
      rw [addToPinMask_invalid 0 pin hpin]
      rfl
    rw [this] at hcontra
    exact Except.noConfusion hcontra
  · intro ps r hmem hcontra
    obtain ⟨e, he⟩ := foldlM_addToPinMask_error ps 0 ⟨pin, hmem, hpin⟩
    have : createPinMask (.many ps) = .error e := by
      show ps.foldlM addToPinMask 0 >>= _ = _
      rw [he]
      rfl
    rw [this] at hcontra
    exact Except.noConfusion hcontra

/-- C7 (witness): the rejection theorem instantiated at the unknown pin
name `"P5"`, inside the collection `["P10", "P5"]`. -/
theorem C7_invalid_pin_rejected_witness :
    addToPinMask 0 "P5" = .error ("Invalid Pin specified: " ++ "P5") ∧
    createPinMask (.single "P5") ≠ .ok 0 ∧
    createPinMask (.many ["P10", "P5"]) ≠ .ok 0 :=
  ⟨(C7_invalid_pin_rejected "P5" (by decide)).1 0,
   (C7_invalid_pin_rejected "P5" (by decide)).2.1 0,
   (C7_invalid_pin_rejected "P5" (by decide)).2.2 ["P10", "P5"] 0
     (by decide)⟩

/-- C5: for every 8-bit address and 8-bit operand, the register operations
send exactly the claimed command frames: `poke(addr, value)` sends
`{addr, 0x00, value, 0x00}`; `setbits(addr, mask)` sends
`{addr, 0xFF, mask, 0x00}`; `clearbits(addr, mask)` sends
`{addr, ~mask & 0xFF, 0x00, 0x00}` (which for an 8-bit mask is
`255 - mask`); `togglebits(addr, mask)` sends `{addr, 0xFF, 0x00, mask}`. -/
theorem C5_register_op_frames (addr value mask : ℕ)
    (ha : addr < 256) (hv : value < 256) (hm : mask < 256) :
    pokeFrame addr value = [(addr : ℤ), 0x00, (value : ℤ), 0x00] ∧
    setbitsFrame addr mask = [(addr : ℤ), 0xFF, (mask : ℤ), 0x00] ∧
    clearbitsFrame addr mask = [(addr : ℤ), 255 - (mask : ℤ), 0x00, 0x00] ∧
    togglebitsFrame addr mask = [(addr : ℤ), 0xFF, 0x00, (mask : ℤ)] := by
  refine ⟨?_, ?_, ?_, ?_⟩ <;>
      simp only [pokeFrame, setbitsFrame, clearbitsFrame, togglebitsFrame,
        magicFrame, pyAnd255, pyNot, List.cons.injEq, and_true]
  · norm_num; omega
  · norm_num; omega
  · norm_num; omega
  · norm_num; omega

/-- C5 (witness): the frame theorem instantiated at the control register
address `0x45`, value `0x12` and mask `0x0F`. -/
theorem C5_register_op_frames_witness :
    pokeFrame 0x45 0x12 = [0x45, 0x00, 0x12, 0x00] ∧
    setbitsFrame 0x45 0x0F = [0x45, 0xFF, 0x0F, 0x00] ∧
    clearbitsFrame 0x45 0x0F = [0x45, 0xF0, 0x00, 0x00] ∧
    togglebitsFrame 0x45 0x0F = [0x45, 0xFF, 0x00, 0x0F] :=
  C5_register_op_frames 0x45 0x12 0x0F (by decide) (by decide) (by decide)

/-- C6 (counterexample): the claim says `peek` requests a fixed-length echo
of exactly 7 bytes. In the source, `peek` calls `_magic` without the
`expected` argument, so `_magic` executes `self.uart.read()` — a read of
the whole pending echo with no requested length — rather than
`self.uart.read(7)`. -/
theorem C6_peek_read_request_counterexample :
    peekReadReq = ReadReq.all ∧ peekReadReq ≠ ReadReq.upTo 7 := by
  exact ⟨rfl, by decide⟩

/-- C6 (amended): for every address, `peek(addr)` sends the frame
`{addr, 0xFF, 0x00, 0x00}`, then reads the whole pending echo with no
requested length, and returns the byte at index 6 of that echo (failing
when the echo is shorter than 7 bytes); in particular, on the chip's
7-byte reply it returns the last byte. -/
theorem C6_peek_behaviour (addr : ℕ) (ha : addr < 256) (echo : List ℕ) :
    peekFrame addr = [(addr : ℤ), 0xFF, 0x00, 0x00] ∧
    peekReadReq = ReadReq.all ∧
    peek echo = echo[6]? ∧
    (∀ b0 b1 b2 b3 b4 b5 b6 : ℕ, echo = [b0, b1, b2, b3, b4, b5, b6] →
      peek echo = some b6) := by
  refine ⟨?_, rfl, rfl, ?_⟩
  · simp only [peekFrame, magicFrame, pyAnd255, List.cons.injEq, and_true]
    norm_num
  · rintro b0 b1 b2 b3 b4 b5 b6 rfl
    rfl

/-- C6 (witness): the peek theorem instantiated at the wake-status address
`0x40` and a concrete 7-byte echo. -/
theorem C6_peek_behaviour_witness :
    peekFrame 0x40 = [0x40, 0xFF, 0x00, 0x00] ∧
    peek [9, 8, 7, 6, 5, 4, 3] = some 3 :=
  ⟨(C6_peek_behaviour 0x40 (by decide) []).1,
   (C6_peek_behaviour 0x40 (by decide) [9, 8, 7, 6, 5, 4, 3]).2.2.2
     9 8 7 6 5 4 3 rfl⟩

/-- C2: for every requested duration in seconds and every held calibration
factor, one `go_to_sleep` iteration computes
`ticks = round(seconds / (1.024 * factor))` (10 seconds at factor 1.0 give
10 ticks, 100 seconds at factor 1.2 give 81), and writes the tick count as
3 bytes, most-significant first, to the three consecutive sleep-time
registers `0x42, 0x43, 0x44`, before setting the sleep-arm bit
`1 << 0` on the control register. -/
theorem C2_sleep_tick_schedule (s factor : ℚ) (hs : 0 ≤ s) (hf : 0 < factor)
    (h24 : computeTicks s factor < 2 ^ 24) :
    computeTicks s factor = round (s / (1.024 * factor)) ∧
    computeTicks 10 1 = 10 ∧
    computeTicks 100 1.2 = 81 ∧
    (∃ hi mid lo : ℤ,
      goToSleepFrames (computeTicks s factor) =
        [pokeFrame SLEEP_TIME_ADDR hi,
         pokeFrame (SLEEP_TIME_ADDR + 1) mid,
         pokeFrame (SLEEP_TIME_ADDR + 2) lo,
         setbitsFrame CTRL_0_ADDR (1 <<< 0)] ∧
      hi * 2 ^ 16 + mid * 2 ^ 8 + lo = computeTicks s factor ∧
      0 ≤ hi ∧ hi < 256 ∧ 0 ≤ mid ∧ mid < 256 ∧ 0 ≤ lo ∧ lo < 256) := by
  have h1 : (0 : ℚ) < 1.024 * factor := by positivity
  have h2 : (0 : ℚ) ≤ s / (1.024 * factor) := by positivity
  have hticks0 : 0 ≤ computeTicks s factor := by
    rw [computeTicks, pyInt, if_pos (by linarith)]
    exact Int.le_floor.mpr (by push_cast; linarith)
  refine ⟨?_, ?_, ?_, ?_⟩
  · rw [computeTicks, pyInt, if_pos (by linarith), round_eq]
    norm_num
  · norm_num [computeTicks, pyInt]
  · norm_num [computeTicks, pyInt]
  · refine ⟨pyAnd255 (computeTicks s factor / 2 ^ 16),
      pyAnd255 (computeTicks s factor / 2 ^ 8),
      pyAnd255 (computeTicks s factor), rfl, ?_⟩
    simp only [pyAnd255]
    omega

/-- C2 (witness): the scheduling theorem instantiated at 10 requested
seconds and calibration factor 1. -/
theorem C2_sleep_tick_schedule_witness :
    computeTicks 10 1 = round ((10 : ℚ) / (1.024 * 1)) ∧
    computeTicks 10 1 = 10 ∧
    computeTicks 100 1.2 = 81 ∧
    (∃ hi mid lo : ℤ,
      goToSleepFrames (computeTicks 10 1) =
        [pokeFrame SLEEP_TIME_ADDR hi,
         pokeFrame (SLEEP_TIME_ADDR + 1) mid,
         pokeFrame (SLEEP_TIME_ADDR + 2) lo,
         setbitsFrame CTRL_0_ADDR (1 <<< 0)] ∧
      hi * 2 ^ 16 + mid * 2 ^ 8 + lo = computeTicks 10 1 ∧
      0 ≤ hi ∧ hi < 256 ∧ 0 ≤ mid ∧ mid < 256 ∧ 0 ≤ lo ∧ lo < 256) :=
  C2_sleep_tick_schedule 10 1 (by norm_num) (by norm_num)
    (by norm_num [computeTicks, pyInt])

/-- C10: inside `go_to_sleep`'s unbounded loop the local `seconds` is
overwritten with the computed tick count, so the value written at each
iteration after the first is the previous iteration's tick count divided
again by `1.024 * factor` and rounded — not a tick count derived from the
originally requested duration: with factor 1 throughout and 100 requested
seconds, iteration 0 writes 98 ticks but iteration 1 writes 96, not the
98 that the original duration would give. -/
theorem C10_loop_overwrites_seconds (f : ℕ → ℚ) (s0 : ℚ) (n : ℕ) :
    ticksWritten f s0 (n + 1) =
      computeTicks ((ticksWritten f s0 n : ℤ) : ℚ) (f (n + 1)) ∧
    ticksWritten (fun _ => 1) 100 0 = 98 ∧
    ticksWritten (fun _ => 1) 100 1 = 96 ∧
    ticksWritten (fun _ => 1) 100 1 ≠ computeTicks 100 1 := by
  refine ⟨rfl, ?_, ?_, ?_⟩
  · norm_num [ticksWritten, sleepSeconds, computeTicks, pyInt]
  · norm_num [ticksWritten, sleepSeconds, computeTicks, pyInt]
  · norm_num [ticksWritten, sleepSeconds, computeTicks, pyInt]

/-- C3: `calibrate()` computes the candidate factor as the difference of
the timestamps of captured edges 4 and 1 divided by `EXP_RTC_PERIOD`; when
that difference is exactly `EXP_RTC_PERIOD` the resulting factor is exactly
1, and when fewer than 5 edges are captured the factor keeps its prior
value, provided the prior value lies in the accepted range. -/
theorem C3_calibration_factor (prior : ℚ) (pulses : List (ℤ × ℤ)) :
    (∀ p1 p4, pulses[1]? = some p1 → pulses[4]? = some p4 →
      calibCandidate prior pulses =
        ((p4.2 - p1.2 : ℤ) : ℚ) / (EXP_RTC_PERIOD : ℚ)) ∧
    (∀ p1 p4, pulses[1]? = some p1 → pulses[4]? = some p4 →
      p4.2 - p1.2 = (EXP_RTC_PERIOD : ℤ) → calibrate prior pulses = 1) ∧
    (pulses.length < 5 → 0.75 < prior → prior < 1.25 →
      calibrate prior pulses = prior) := by
  refine ⟨?_, ?_, ?_⟩
  · intro p1 p4 h1 h4
    simp [calibCandidate, h1, h4]
  · intro p1 p4 h1 h4 hdiff
    have hcand : calibCandidate prior pulses = 1 := by
      simp only [calibCandidate, h1, h4, hdiff]
      norm_num [EXP_RTC_PERIOD]
    rw [calibrate, hcand, clampFactor]
    norm_num
  · intro hlen hlo hhi
    have h4 : pulses[4]? = none := by
      rw [List.getElem?_eq_none]
      omega
    have hcand : calibCandidate prior pulses = prior := by
      rw [calibCandidate, h4]
    rw [calibrate, hcand, clampFactor, if_neg]
    push_neg
    exact ⟨le_of_lt hhi, le_of_lt hlo⟩

/-- C3 (witness): the calibration theorem instantiated at a 5-edge train
whose edges 1 and 4 are exactly `EXP_RTC_PERIOD` apart, and at a 2-edge
train with prior factor 1. -/
theorem C3_calibration_factor_witness :
    calibrate 1 [(1, 0), (0, 17), (1, 18), (0, 19), (1, 7017)] = 1 ∧
    calibrate 1 [(1, 0), (0, 17)] = 1 :=
  ⟨(C3_calibration_factor 1 [(1, 0), (0, 17), (1, 18), (0, 19), (1, 7017)]).2.1
      (0, 17) (1, 7017) rfl rfl (by norm_num [EXP_RTC_PERIOD]),
   (C3_calibration_factor 1 [(1, 0), (0, 17)]).2.2 (by norm_num)
      (by norm_num) (by norm_num)⟩

/-- C4 (counterexample): the claim says a computed factor of exactly 1.25
is discarded and replaced by 1. The source's guard is
`if self.clk_cal_factor > 1.25 or self.clk_cal_factor < 0.75`, which is
false at exactly 1.25, so a pulse train measuring `8750 = 1.25 * 7000`
units between edges 1 and 4 leaves the factor at 1.25. -/
theorem C4_boundary_counterexample :
    calibrate 1 [(1, 0), (0, 0), (1, 0), (0, 0), (1, 8750)] = 1.25 ∧
    (1.25 : ℚ) ≠ 1 := by
  constructor
  · norm_num [calibrate, calibCandidate, clampFactor, EXP_RTC_PERIOD]
  · norm_num

/-- C4 (amended): after `calibrate()` computes a candidate factor, any
value outside the closed interval `[0.75, 1.25]` is replaced by 1, and any
value inside the closed interval — the boundary values 0.75 and 1.25
included — is kept. -/
theorem C4_factor_clamping (prior : ℚ) (pulses : List (ℤ × ℤ)) :
    (1.25 < calibCandidate prior pulses ∨ calibCandidate prior pulses < 0.75 →
      calibrate prior pulses = 1) ∧
    (0.75 ≤ calibCandidate prior pulses → calibCandidate prior pulses ≤ 1.25 →
      calibrate prior pulses = calibCandidate prior pulses) := by
  constructor
  · intro h
    rw [calibrate, clampFactor, if_pos h]
  · intro hlo hhi
    rw [calibrate, clampFactor, if_neg]
    push_neg
    exact ⟨hhi, hlo⟩

/-- C4 (witness): the clamping theorem instantiated at a train measuring
factor 2 (reset to 1) and at the boundary train measuring factor 1.25
(kept). -/
theorem C4_factor_clamping_witness :
    calibrate 1 [(1, 0), (0, 0), (1, 0), (0, 0), (1, 14000)] = 1 ∧
    calibrate 1 [(1, 0), (0, 0), (1, 0), (0, 0), (1, 8750)] =
      calibCandidate 1 [(1, 0), (0, 0), (1, 0), (0, 0), (1, 8750)] :=
  ⟨(C4_factor_clamping 1 [(1, 0), (0, 0), (1, 0), (0, 0), (1, 14000)]).1
      (Or.inl (by norm_num [calibCandidate, EXP_RTC_PERIOD])),
   (C4_factor_clamping 1 [(1, 0), (0, 0), (1, 0), (0, 0), (1, 8750)]).2
      (by norm_num [calibCandidate, EXP_RTC_PERIOD])
      (by norm_num [calibCandidate, EXP_RTC_PERIOD])⟩

/-- C8 (counterexample): the claim says the volts-to-register conversion
never fails for any input; at 0 volts the source's
`int(((256 * 2.048) + (value / 2)) / value)` divides by zero and raises. -/
theorem C8_zero_volts_counterexample : setMinVoltageLimit 0 = none := rfl

/-- C8 (amended): for every nonzero input voltage, `set_min_voltage_limit`
deterministically converts volts to a register value and never fails,
performing no validation even for out-of-range inputs; for positive
voltage the register value is `round(256 * 2.048 / volts)`. Only an input
of exactly 0 volts fails, with a division by zero. -/
theorem C8_voltage_conversion_total (v : ℚ) (hv : v ≠ 0) :
    setMinVoltageLimit v = some (pyInt ((256 * 2.048 + v / 2) / v)) ∧
    (0 < v → setMinVoltageLimit v = some (round ((256 * 2.048 : ℚ) / v))) := by
  refine ⟨by rw [setMinVoltageLimit, if_neg hv], ?_⟩
  intro hpos
  rw [setMinVoltageLimit, if_neg hv]
  congr 1
  have key : (256 * 2.048 + v / 2) / v = 256 * 2.048 / v + 1 / 2 := by
    rw [add_div, div_div, mul_comm 2 v, div_mul_cancel_left₀ hv, ← one_div]
  have h2 : (0 : ℚ) ≤ 256 * 2.048 / v + 1 / 2 := by positivity
  rw [key, pyInt, if_pos h2, round_eq]

/-- C8 (witness): the conversion theorem instantiated at 3.6 volts, where
the register value is `round(524.288 / 3.6) = 146`. -/
theorem C8_voltage_conversion_total_witness :
    setMinVoltageLimit 3.6 = some (round ((256 * 2.048 : ℚ) / 3.6)) ∧
    round ((256 * 2.048 : ℚ) / 3.6) = 146 :=
  ⟨(C8_voltage_conversion_total 3.6 (by norm_num)).2 (by norm_num),
   by norm_num [round_eq]⟩

/-- C9: for every status byte read from the wake-status register, bit 4
drives the timer-wake flag, bit 5 the power-on-wake flag, and bits 0, 1, 3
give the post-wake level of pins P10, P17, P18 respectively; the byte
`0b00010001` decodes to timer-wake set, P10 level 1, and P17 and P18
level 0. -/
theorem C9_wake_status_decoding : ∀ r < 256,
    ((getWakeStatus r).wake &&& TIMER_WAKE ≠ 0 ↔ r.testBit 4) ∧
    ((getWakeStatus r).wake &&& POWER_ON_WAKE ≠ 0 ↔ r.testBit 5) ∧
    ((getWakeStatus r).P10 = if r.testBit 0 then 1 else 0) ∧
    ((getWakeStatus r).P17 = if r.testBit 1 then 1 else 0) ∧
    ((getWakeStatus r).P18 = if r.testBit 3 then 1 else 0) ∧
    getWakeStatus 0b00010001 =
      ⟨TIMER_WAKE, 1, 0, 0⟩ := by
  decide

/-- C9 (witness): the decoding theorem instantiated at the status byte
`0b00010001`. -/
theorem C9_wake_status_decoding_witness :
    ((getWakeStatus 0b00010001).wake &&& TIMER_WAKE ≠ 0 ↔
      Nat.testBit 0b00010001 4) ∧
    ((getWakeStatus 0b00010001).wake &&& POWER_ON_WAKE ≠ 0 ↔
      Nat.testBit 0b00010001 5) ∧
    ((getWakeStatus 0b00010001).P10 = if Nat.testBit 0b00010001 0 then 1 else 0) ∧
    ((getWakeStatus 0b00010001).P17 = if Nat.testBit 0b00010001 1 then 1 else 0) ∧
    ((getWakeStatus 0b00010001).P18 = if Nat.testBit 0b00010001 3 then 1 else 0) ∧
    getWakeStatus 0b00010001 = ⟨TIMER_WAKE, 1, 0, 0⟩ :=
  C9_wake_status_decoding 0b00010001 (by decide)

end DeepSleep
